import Mathlib

/-!
Shallow embedding of pfhub/scripts/cli.py (the PFHub CLI tool).

The embedding covers:
* the Zenodo URL classifier (zenodo_regexs, zenodo_sandbox_regexs,
  get_zenodo_record_id),
* the legacy validator validate_old_ and its URL wrapper validate_old_url
  (exception outcomes of the external pykwalify engine and the external
  download_file collaborator are explicit parameters),
* the current-schema validator validate_ (exception outcomes of the external
  linkml engine are an explicit parameter),
* the command dispatchers download and download_meta, and the output
  formatter.

Each of the five regular expressions in cli.py has the shape of a sequence of
literal characters interleaved with the regex wildcard dot, followed by the
capturing group of one or more digits reaching the end of the string
(re.fullmatch is used, so the whole URL must be consumed).  The wildcard dot
of Python re matches any character except the newline; the digit class is
modelled as the ASCII digits 0-9.
-/

namespace PFHub

/-- One character of a Zenodo regex before the capture group: a literal
character, or the regex wildcard dot. -/
inductive PatChar
  | lit (c : Char)
  | any
deriving DecidableEq, Repr

/-- Whether a single pattern character matches a single character of the URL.
The wildcard matches every character except the newline. -/
def PatChar.matchesChar : PatChar → Char → Bool
  | .lit a, c => a == c
  | .any, c => !(c == '\n')

/-- Translate the text of a regex of cli.py (the part before the capture
group) into its pattern characters: the dot is the wildcard, every other
character is a literal. -/
def toPattern (s : String) : List PatChar :=
  s.data.map (fun c => if c == '.' then PatChar.any else PatChar.lit c)

/-- The production Zenodo URL regexs of cli.py (zenodo_regexs), in listed
order.  Each entry is the part before the trailing capture group of one or
more digits. -/
def zenodo_regexs : List (List PatChar) :=
  [ toPattern "https://doi.org/10.5281/zenodo.",
    toPattern "https://zenodo.org/api/records/",
    toPattern "https://zenodo.org/record/" ]

/-- The sandbox Zenodo URL regexs of cli.py (zenodo_sandbox_regexs), in
listed order. -/
def zenodo_sandbox_regexs : List (List PatChar) :=
  [ toPattern "https://sandbox.zenodo.org/record/",
    toPattern "https://sandbox.zenodo.org/api/records/" ]

/-- re.fullmatch of a pattern followed by the capture group of one or more
digits, over the characters of the URL: the pattern characters must consume a
prefix of the URL one for one, and the remaining characters must be a
non-empty run of digits, which is the captured group.  The whole URL is
consumed, so nothing may follow the digits. -/
def fullmatchDigits : List PatChar → List Char → Option (List Char)
  | [], [] => none
  | [], c :: cs => if (c :: cs).all Char.isDigit then some (c :: cs) else none
  | _ :: _, [] => none
  | p :: ps, c :: cs => if p.matchesChar c then fullmatchDigits ps cs else none

/-- re.fullmatch on a URL string; the returned value is the first (and only)
capture group of the match, x.groups()[0] in cli.py. -/
def fullmatch (pat : List PatChar) (url : String) : Option String :=
  (fullmatchDigits pat url.data).map fun ds => String.mk ds

/-- Modelled from the spec: compact (imported in cli.py from pfhub.func,
whose source is not under src/) removes the absent values from a sequence of
optional values keeping the order of the rest, so that in
get_zenodo_record_id the first full match in listed order wins and at most
one identifier is extracted. -/
def compact {α : Type} (xs : List (Option α)) : List α := xs.filterMap id

/-- get_zenodo_record_id of cli.py: map re.fullmatch over the regexs in
listed order, drop the failures (compact), extract each captured group, and
take the head of the list with default None.  Here fullmatch already returns
the captured group, merging the two map stages of the pipe. -/
def get_zenodo_record_id (url : String) (regexs : List (List PatChar)) :
    Option String :=
  (compact (regexs.map (fun pat => fullmatch pat url))).head?

/-! ### Legacy validator (validate_old_, validate_old_url) -/

/-- Outcome of constructing the pykwalify validation session
(pykwalify.core.Core in validate_old_): either the construction raises
pykwalify.errors.CoreError (the file cannot be parsed at all, or the schema
definition is malformed), or the validation object is constructed. -/
inductive ConstructOutcome
  | coreError
  | constructed
deriving DecidableEq, Repr

/-- Outcome of obj.validate(raise_exception=True) in validate_old_: either a
schema rule is violated and pykwalify.errors.SchemaError is raised, or the
content is valid. -/
inductive ContentOutcome
  | schemaError
  | valid
deriving DecidableEq, Repr

/-- validate_old_ of cli.py: the construction phase is wrapped in a
try/except mapping CoreError to False, the validation phase is wrapped in a
try/except mapping SchemaError to False, and success in both phases yields
True.  The content phase is only reached when construction succeeded. -/
def validate_old_ (c : ConstructOutcome) (v : ContentOutcome) : Bool :=
  match c with
  | .coreError => false
  | .constructed =>
    match v with
    | .schemaError => false
    | .valid => true

/-- Outcome of the external download_file collaborator used by
validate_old_url: it returns a local file path, or raises
requests.exceptions.ConnectionError (carrying a message), or raises
IsADirectoryError. -/
inductive DownloadFileOutcome
  | ok (file_path : String)
  | connectionError (msg : String)
  | isADirectoryError
deriving DecidableEq, Repr

/-- An exception escaping validate_old_url, caught by download_meta. -/
inductive PyExc
  | connectionError (msg : String)
  | isADirectory
deriving DecidableEq, Repr

/-- Trace of one call of validate_old_url: the returned boolean or the
escaping exception, together with whether shutil.rmtree was executed on the
temporary directory created by tempfile.mkdtemp. -/
structure UrlValidationTrace where
  result : Except PyExc Bool
  tmpdirRemoved : Bool
deriving Repr

/-- validate_old_url of cli.py, as straight-line code: make the temporary
directory, call download_file, call validate_old_ on the downloaded path,
remove the temporary directory, return the result.  There is no try/finally:
when download_file raises, the exception propagates at that statement and the
shutil.rmtree line is never executed. -/
def validate_old_url (dl : DownloadFileOutcome) (c : ConstructOutcome)
    (v : ContentOutcome) : UrlValidationTrace :=
  match dl with
  | .ok _ => { result := .ok (validate_old_ c v), tmpdirRemoved := true }
  | .connectionError msg =>
      { result := .error (.connectionError msg), tmpdirRemoved := false }
  | .isADirectoryError =>
      { result := .error .isADirectory, tmpdirRemoved := false }

/-! ### Current validator (validate_) -/

/-- Outcome of invoking the external linkml engine
(validator.cli.callback in validate_): it raises SystemExit with an exit
code, or raises a KeyError (rendered to a message string), or returns
normally. -/
inductive EngineOutcome
  | systemExit (code : Int)
  | keyError (msg : String)
  | normalReturn
deriving DecidableEq, Repr

/-- Result of validate_: a returned boolean together with the lines printed
on the way, or a RuntimeError escaping with its message. -/
inductive ValidateResult
  | returns (valid : Bool) (printed : List String)
  | runtimeError (msg : String)
deriving DecidableEq, Repr

/-- validate_ of cli.py: SystemExit is intercepted and translated to the
comparison of its code with 0; KeyError is intercepted, a diagnostic line is
printed and False is returned; when the engine returns normally a
RuntimeError is raised. -/
def validate_ (engine : EngineOutcome) : ValidateResult :=
  match engine with
  | .systemExit code => .returns (code == 0) []
  | .keyError msg => .returns false ["KeyError: " ++ msg]
  | .normalReturn => .runtimeError "the linkml validator did not exit correctly"

/-! ### Output formatting (output) -/

/-- click.format_filename is the identity on string file paths. -/
def format_filename (s : String) : String := s

/-- The text printed by one call of the inner echo of output: a space, the
formatted path, and the comma argument, with no newline unless the caller
prints one. -/
def echoStr (local_filepath comma : String) : String :=
  " " ++ format_filename local_filepath ++ comma

/-- The text printed by the for loop of output over all file paths but the
last, each with a trailing comma and no newline. -/
def outputLoop : List String → String
  | [] => ""
  | fp :: fps => echoStr fp "," ++ outputLoop fps

/-- output of cli.py: print Writing: without a newline, loop over all paths
but the last printing each with a comma, then print the last path without a
comma followed by a newline.  On the empty list the indexing
local_filepaths[-1] raises IndexError, modelled as none. -/
def output (local_filepaths : List String) : Option String :=
  match local_filepaths.getLast? with
  | none => none
  | some last =>
      some ("Writing:" ++ outputLoop local_filepaths.dropLast
        ++ echoStr last "" ++ "\n")

/-! ### Command dispatchers (download, download_meta) -/

/-- Observable result of the download command: the arguments passed to the
download_zenodo_ collaborator when it is invoked, the error lines printed,
the text printed by output, and the exit code. -/
structure DownloadCmdResult where
  invoked : Option (String × Bool)
  messages : List String
  printed : Option String
  exitCode : Nat
deriving DecidableEq, Repr

/-- The download command of cli.py.  zenodo_filepaths is the list of local
file paths returned by the external download_zenodo_ collaborator when it is
invoked.  Production regexs are tried first with sandbox False; only when no
production regex matches are the sandbox regexs tried with sandbox True; when
neither matches, the message is printed and sys.exit(1) is called. -/
def download (url : String) (zenodo_filepaths : List String) :
    DownloadCmdResult :=
  match get_zenodo_record_id url zenodo_regexs with
  | some record_id =>
      { invoked := some (record_id, false), messages := [],
        printed := output zenodo_filepaths, exitCode := 0 }
  | none =>
      match get_zenodo_record_id url zenodo_sandbox_regexs with
      | some record_id =>
          { invoked := some (record_id, true), messages := [],
            printed := output zenodo_filepaths, exitCode := 0 }
      | none =>
          { invoked := none,
            messages := [url ++ " does not match any expected regex for Zenodo"],
            printed := none, exitCode := 1 }

/-- Observable result of the download_meta command: whether the
download_meta_ collaborator was invoked, the error lines printed, the text
printed by output, and the exit code. -/
structure MetaCmdResult where
  invoked : Bool
  messages : List String
  printed : Option String
  exitCode : Nat
deriving DecidableEq, Repr

/-- The download_meta command of cli.py.  The call of validate_old_url is
wrapped in a try/except: ConnectionError prints the error and the invalid
message and exits 1, IsADirectoryError prints the not-a-link message and
exits 1.  Otherwise the returned boolean decides between invoking the
download_meta_ collaborator (whose returned paths meta_filepaths are printed
by output, exit code 0) and printing the not-valid message with exit 1. -/
def download_meta (url : String) (dl : DownloadFileOutcome)
    (c : ConstructOutcome) (v : ContentOutcome)
    (meta_filepaths : List String) : MetaCmdResult :=
  match (validate_old_url dl c v).result with
  | .error (.connectionError msg) =>
      { invoked := false, messages := [msg, url ++ " is invalid"],
        printed := none, exitCode := 1 }
  | .error .isADirectory =>
      { invoked := false, messages := [url ++ " is not a link to a file"],
        printed := none, exitCode := 1 }
  | .ok true =>
      { invoked := true, messages := [],
        printed := output meta_filepaths, exitCode := 0 }
  | .ok false =>
      { invoked := false, messages := [url ++ " is not valid"],
        printed := none, exitCode := 1 }

/-- The comma-separated rendering named by the spec: entries joined by a
comma and a space, the final entry without a trailing comma.  This follows
the words of the spec and is compared with the output function embedded from
the source. -/
def specCommaSeparated : List String → String
  | [] => ""
  | [p] => p
  | p :: ps => p ++ ", " ++ specCommaSeparated ps

/-! ### Helper lemmas about the classifier -/

theorem compact_cons_some {α : Type} (a : α) (xs : List (Option α)) :
    compact (some a :: xs) = a :: compact xs := by
  simp [compact]

theorem compact_cons_none {α : Type} (xs : List (Option α)) :
    compact (none :: xs) = compact xs := by
  simp [compact]

theorem get_zenodo_record_id_nil (url : String) :
    get_zenodo_record_id url [] = none := rfl

theorem get_zenodo_record_id_cons (url : String) (p : List PatChar)
    (ps : List (List PatChar)) :
    get_zenodo_record_id url (p :: ps)
      = Option.or (fullmatch p url) (get_zenodo_record_id url ps) := by
  cases h : fullmatch p url with
  | some a =>
      simp only [get_zenodo_record_id, List.map_cons, h, compact_cons_some,
        List.head?_cons, Option.or]
  | none =>
      simp only [get_zenodo_record_id, List.map_cons, h, compact_cons_none,
        Option.or]

theorem get_zenodo_record_id_eq_some {url d : String}
    {regexs : List (List PatChar)}
    (h : get_zenodo_record_id url regexs = some d) :
    ∃ pat ∈ regexs, fullmatch pat url = some d := by
  induction regexs with
  | nil => simp [get_zenodo_record_id_nil] at h
  | cons p ps ih =>
      rw [get_zenodo_record_id_cons] at h
      cases hp : fullmatch p url with
      | some a =>
          rw [hp] at h
          simp only [Option.or] at h
          exact ⟨p, by simp, by rw [hp, h]⟩
      | none =>
          rw [hp] at h
          simp only [Option.or] at h
          obtain ⟨pat, hmem, hf⟩ := ih h
          exact ⟨pat, by simp [hmem], hf⟩

theorem fullmatchDigits_eq_some {pat : List PatChar} {cs ds : List Char}
    (h : fullmatchDigits pat cs = some ds) :
    ds = cs.drop pat.length ∧ cs.length = pat.length + ds.length ∧
      ds ≠ [] ∧ ds.all Char.isDigit = true := by
  induction pat generalizing cs with
  | nil =>
      cases cs with
      | nil => simp [fullmatchDigits] at h
      | cons c cs' =>
          simp only [fullmatchDigits] at h
          by_cases hall : (c :: cs').all Char.isDigit
          · rw [if_pos hall] at h
            cases h
            exact ⟨by simp, by simp, by simp, hall⟩
          · rw [if_neg hall] at h
            exact absurd h (by simp)
  | cons p ps ih =>
      cases cs with
      | nil => simp [fullmatchDigits] at h
      | cons c cs' =>
          simp only [fullmatchDigits] at h
          by_cases hm : p.matchesChar c
          · rw [if_pos hm] at h
            obtain ⟨h1, h2, h3, h4⟩ := ih h
            refine ⟨by simpa using h1, ?_, h3, h4⟩
            simp only [List.length_cons, h2]
            omega
          · rw [if_neg hm] at h
            exact absurd h (by simp)

theorem fullmatch_eq_some {pat : List PatChar} {url d : String}
    (h : fullmatch pat url = some d) :
    d.data = url.data.drop pat.length ∧
      url.data.length = pat.length + d.data.length ∧
      d.data ≠ [] ∧ d.data.all Char.isDigit = true := by
  unfold fullmatch at h
  cases hf : fullmatchDigits pat url.data with
  | none => rw [hf] at h; simp at h
  | some ds =>
      rw [hf] at h
      obtain rfl : String.mk ds = d := by simpa using h
      exact fullmatchDigits_eq_some hf

theorem fullmatchDigits_nil_of_digits {ds : List Char} (h1 : ds ≠ [])
    (h2 : ds.all Char.isDigit = true) : fullmatchDigits [] ds = some ds := by
  cases ds with
  | nil => exact absurd rfl h1
  | cons c cs => simp [fullmatchDigits, h2]

/-! ### Helper lemmas about the output formatter -/

theorem echoStr_comma_append (p X : String) :
    echoStr p "," ++ (" " ++ X) = " " ++ (p ++ ", " ++ X) := by
  simp only [echoStr, format_filename, String.append_assoc]
  rw [show (", " : String) = "," ++ " " from rfl, String.append_assoc]

theorem outputLoop_concat (init : List String) (last : String) :
    outputLoop init ++ echoStr last ""
      = " " ++ specCommaSeparated (init ++ [last]) := by
  induction init with
  | nil =>
      show "" ++ echoStr last "" = " " ++ specCommaSeparated [last]
      simp only [echoStr, format_filename, specCommaSeparated,
        String.empty_append, String.append_empty]
  | cons p init ih =>
      show echoStr p "," ++ outputLoop init ++ echoStr last "" = _
      rw [String.append_assoc, ih, echoStr_comma_append]
      congr 1
      cases init with
      | nil => simp [specCommaSeparated]
      | cons q init' => simp [specCommaSeparated]

/-! ### The claims -/

/-- C1: for every URL on which get_zenodo_record_id over the production
regexs succeeds, the returned identifier is the capture of a production
regex that fully matches the URL, it is a non-empty string of digits, and
the download command invokes the download_zenodo_ collaborator with that
identifier and sandbox False; when no production regex matches but the
sandbox classification succeeds, the same holds with sandbox True. -/
theorem download_zenodo_classification (url d : String) (fps : List String) :
    (get_zenodo_record_id url zenodo_regexs = some d →
      (∃ pat ∈ zenodo_regexs, fullmatch pat url = some d) ∧
      d.data ≠ [] ∧ d.data.all Char.isDigit = true ∧
      (download url fps).invoked = some (d, false) ∧
      (download url fps).exitCode = 0) ∧
    (get_zenodo_record_id url zenodo_regexs = none →
      get_zenodo_record_id url zenodo_sandbox_regexs = some d →
      (∃ pat ∈ zenodo_sandbox_regexs, fullmatch pat url = some d) ∧
      d.data ≠ [] ∧ d.data.all Char.isDigit = true ∧
      (download url fps).invoked = some (d, true) ∧
      (download url fps).exitCode = 0) := by
  constructor
  · intro h
    obtain ⟨pat, hmem, hf⟩ := get_zenodo_record_id_eq_some h
    obtain ⟨-, -, h3, h4⟩ := fullmatch_eq_some hf
    exact ⟨⟨pat, hmem, hf⟩, h3, h4, by simp [download, h], by simp [download, h]⟩
  · intro h1 h2
    obtain ⟨pat, hmem, hf⟩ := get_zenodo_record_id_eq_some h2
    obtain ⟨-, -, h3, h4⟩ := fullmatch_eq_some hf
    exact ⟨⟨pat, hmem, hf⟩, h3, h4, by simp [download, h1, h2],
      by simp [download, h1, h2]⟩

/-- Witness for C1 at a production URL and at a sandbox URL. -/
theorem download_zenodo_classification_witness :
    (download "https://zenodo.org/record/7255597" ["phase_field_1.tsv"]).invoked
        = some ("7255597", false) ∧
    (download "https://sandbox.zenodo.org/record/657937" ["f.jpg"]).invoked
        = some ("657937", true) :=
  ⟨((download_zenodo_classification "https://zenodo.org/record/7255597"
      "7255597" ["phase_field_1.tsv"]).1 rfl).2.2.2.1,
   ((download_zenodo_classification "https://sandbox.zenodo.org/record/657937"
      "657937" ["f.jpg"]).2 rfl rfl).2.2.2.1⟩

/-- C2: validate_ translates a SystemExit of the linkml engine into the
comparison of the exit code with 0 (true exactly for code 0, false for any
other code), translates a KeyError into a printed diagnostic and False, and
raises a RuntimeError when the engine returns without either. -/
theorem validate_exception_translation :
    (∀ code : Int, validate_ (.systemExit code)
        = .returns (if code = 0 then true else false) [])
    ∧ (∀ msg : String, validate_ (.keyError msg)
        = .returns false ["KeyError: " ++ msg])
    ∧ validate_ .normalReturn
        = .runtimeError "the linkml validator did not exit correctly" := by
  refine ⟨fun code => ?_, fun msg => rfl, rfl⟩
  by_cases h : code = 0
  · subst h; rfl
  · simp [validate_, if_neg h, beq_eq_false_iff_ne.mpr h]

/-- C3: validate_old_ maps a construction failure (pykwalify CoreError) to
False for every content outcome, maps a content failure (pykwalify
SchemaError during the validate step) to False, and returns True when both
phases succeed; being a total function into Bool, no exception escapes. -/
theorem validate_old_exception_mapping :
    (∀ v : ContentOutcome, validate_old_ .coreError v = false)
    ∧ validate_old_ .constructed .schemaError = false
    ∧ validate_old_ .constructed .valid = true :=
  ⟨fun _ => rfl, rfl, rfl⟩

/-- C4 counterexample: when download_file raises a ConnectionError, the
exception propagates out of validate_old_url before the shutil.rmtree line,
so the temporary directory is not removed, against the claim that every
exit path removes it. -/
theorem validate_old_url_tmpdir_leak :
    (validate_old_url (.connectionError "connection refused") .constructed
        .valid).tmpdirRemoved = false := rfl

/-- C4 amended: validate_old_url removes the temporary directory exactly on
the path where download_file returns a file path (whatever the validation
outcome); when download_file raises ConnectionError or IsADirectoryError the
exception propagates and the temporary directory is left behind. -/
theorem validate_old_url_tmpdir_paths :
    (∀ (fp : String) (c : ConstructOutcome) (v : ContentOutcome),
        validate_old_url (.ok fp) c v
          = { result := .ok (validate_old_ c v), tmpdirRemoved := true })
    ∧ (∀ (msg : String) (c : ConstructOutcome) (v : ContentOutcome),
        validate_old_url (.connectionError msg) c v
          = { result := .error (.connectionError msg), tmpdirRemoved := false })
    ∧ (∀ (c : ConstructOutcome) (v : ContentOutcome),
        validate_old_url .isADirectoryError c v
          = { result := .error .isADirectory, tmpdirRemoved := false }) :=
  ⟨fun _ _ _ => rfl, fun _ _ _ => rfl, fun _ _ => rfl⟩

/-- C5 counterexample: the claim admits any registrant in the DOI-resolver
shape, but the production regex fixes the registrant 5281, so the URL
https://doi.org/10.9999/zenodo.123 of the claimed shape is classified by
neither pattern set. -/
theorem zenodo_doi_registrant_counterexample :
    get_zenodo_record_id "https://doi.org/10.9999/zenodo.123" zenodo_regexs
        = none ∧
    get_zenodo_record_id "https://doi.org/10.9999/zenodo.123"
        zenodo_sandbox_regexs = none :=
  ⟨rfl, rfl⟩

/-- C5 amended: for every non-empty string of digits d, the DOI-resolver
shape with registrant 5281, the production shapes /api/records/ and /record/,
and the sandbox shapes /record/ and /api/records/ under the sandbox host are
all recognized with identifier d; the sandbox URLs match no production
pattern. -/
theorem zenodo_url_shapes (d : String) (h1 : d.data ≠ [])
    (h2 : d.data.all Char.isDigit = true) :
    get_zenodo_record_id ("https://doi.org/10.5281/zenodo." ++ d)
        zenodo_regexs = some d ∧
    get_zenodo_record_id ("https://zenodo.org/api/records/" ++ d)
        zenodo_regexs = some d ∧
    get_zenodo_record_id ("https://zenodo.org/record/" ++ d)
        zenodo_regexs = some d ∧
    get_zenodo_record_id ("https://sandbox.zenodo.org/record/" ++ d)
        zenodo_regexs = none ∧
    get_zenodo_record_id ("https://sandbox.zenodo.org/record/" ++ d)
        zenodo_sandbox_regexs = some d ∧
    get_zenodo_record_id ("https://sandbox.zenodo.org/api/records/" ++ d)
        zenodo_regexs = none ∧
    get_zenodo_record_id ("https://sandbox.zenodo.org/api/records/" ++ d)
        zenodo_sandbox_regexs = some d := by
  have hd : fullmatchDigits [] d.data = some d.data :=
    fullmatchDigits_nil_of_digits h1 h2
  refine ⟨?_, ?_, ?_, ?_, ?_, ?_, ?_⟩
  · simp only [get_zenodo_record_id, zenodo_regexs, List.map_cons, List.map_nil]
    rw [show fullmatch (toPattern "https://doi.org/10.5281/zenodo.")
        ("https://doi.org/10.5281/zenodo." ++ d)
        = (fullmatchDigits [] d.data).map (fun ds => String.mk ds) from rfl, hd]
    rfl
  · simp only [get_zenodo_record_id, zenodo_regexs, List.map_cons, List.map_nil]
    rw [show fullmatch (toPattern "https://doi.org/10.5281/zenodo.")
          ("https://zenodo.org/api/records/" ++ d) = none from rfl,
      show fullmatch (toPattern "https://zenodo.org/api/records/")
          ("https://zenodo.org/api/records/" ++ d)
          = (fullmatchDigits [] d.data).map (fun ds => String.mk ds) from rfl, hd]
    rfl
  · simp only [get_zenodo_record_id, zenodo_regexs, List.map_cons, List.map_nil]
    rw [show fullmatch (toPattern "https://doi.org/10.5281/zenodo.")
          ("https://zenodo.org/record/" ++ d) = none from rfl,
      show fullmatch (toPattern "https://zenodo.org/api/records/")
          ("https://zenodo.org/record/" ++ d) = none from rfl,
      show fullmatch (toPattern "https://zenodo.org/record/")
          ("https://zenodo.org/record/" ++ d)
          = (fullmatchDigits [] d.data).map (fun ds => String.mk ds) from rfl, hd]
    rfl
  · simp only [get_zenodo_record_id, zenodo_regexs, List.map_cons, List.map_nil]
    rw [show fullmatch (toPattern "https://doi.org/10.5281/zenodo.")
          ("https://sandbox.zenodo.org/record/" ++ d) = none from rfl,
      show fullmatch (toPattern "https://zenodo.org/api/records/")
          ("https://sandbox.zenodo.org/record/" ++ d) = none from rfl,
      show fullmatch (toPattern "https://zenodo.org/record/")
          ("https://sandbox.zenodo.org/record/" ++ d) = none from rfl]
    rfl
  · simp only [get_zenodo_record_id, zenodo_sandbox_regexs, List.map_cons,
      List.map_nil]
    rw [show fullmatch (toPattern "https://sandbox.zenodo.org/record/")
          ("https://sandbox.zenodo.org/record/" ++ d)
          = (fullmatchDigits [] d.data).map (fun ds => String.mk ds) from rfl, hd]
    rfl
  · simp only [get_zenodo_record_id, zenodo_regexs, List.map_cons, List.map_nil]
    rw [show fullmatch (toPattern "https://doi.org/10.5281/zenodo.")
          ("https://sandbox.zenodo.org/api/records/" ++ d) = none from rfl,
      show fullmatch (toPattern "https://zenodo.org/api/records/")
          ("https://sandbox.zenodo.org/api/records/" ++ d) = none from rfl,
      show fullmatch (toPattern "https://zenodo.org/record/")
          ("https://sandbox.zenodo.org/api/records/" ++ d) = none from rfl]
    rfl
  · simp only [get_zenodo_record_id, zenodo_sandbox_regexs, List.map_cons,
      List.map_nil]
    rw [show fullmatch (toPattern "https://sandbox.zenodo.org/record/")
          ("https://sandbox.zenodo.org/api/records/" ++ d) = none from rfl,
      show fullmatch (toPattern "https://sandbox.zenodo.org/api/records/")
          ("https://sandbox.zenodo.org/api/records/" ++ d)
          = (fullmatchDigits [] d.data).map (fun ds => String.mk ds) from rfl, hd]
    rfl

/-- Witness for the amended C5 at the digit string 123456. -/
theorem zenodo_url_shapes_witness :
    get_zenodo_record_id ("https://doi.org/10.5281/zenodo." ++ "123456")
        zenodo_regexs = some "123456" ∧
    get_zenodo_record_id ("https://sandbox.zenodo.org/record/" ++ "123456")
        zenodo_sandbox_regexs = some "123456" :=
  ⟨(zenodo_url_shapes "123456" (by decide) (by decide)).1,
   (zenodo_url_shapes "123456" (by decide) (by decide)).2.2.2.2.1⟩

/-- C6: get_zenodo_record_id tries the regexs in listed order and the first
full match wins (the cons characterization), a full match captures exactly
the remainder of the URL up to its end so a substring match does not count,
and a URL whose matching stops before the end of the string (trailing
non-digits) is classified by no production pattern. -/
theorem get_zenodo_first_full_match :
    (∀ (url : String) (p : List PatChar) (ps : List (List PatChar)),
        get_zenodo_record_id url (p :: ps)
          = Option.or (fullmatch p url) (get_zenodo_record_id url ps))
    ∧ (∀ (pat : List PatChar) (url d : String), fullmatch pat url = some d →
        d.data = url.data.drop pat.length ∧
        url.data.length = pat.length + d.data.length)
    ∧ get_zenodo_record_id "https://zenodo.org/record/123extra" zenodo_regexs
        = none :=
  ⟨fun url p ps => get_zenodo_record_id_cons url p ps,
   fun _ _ _ h => ⟨(fullmatch_eq_some h).1, (fullmatch_eq_some h).2.1⟩,
   rfl⟩

/-- Witness for C6 at a concrete full match. -/
theorem get_zenodo_first_full_match_witness :
    ("7" : String).data = ("https://zenodo.org/record/7" : String).data.drop
        (toPattern "https://zenodo.org/record/").length ∧
    ("https://zenodo.org/record/7" : String).data.length
      = (toPattern "https://zenodo.org/record/").length
          + ("7" : String).data.length :=
  get_zenodo_first_full_match.2.1 (toPattern "https://zenodo.org/record/")
    "https://zenodo.org/record/7" "7" rfl

/-- C7: on a URL matching neither pattern set, the download command does not
invoke the collaborator, prints the does-not-match message and exits with
code 1. -/
theorem download_unmatched_url (url : String) (fps : List String)
    (h1 : get_zenodo_record_id url zenodo_regexs = none)
    (h2 : get_zenodo_record_id url zenodo_sandbox_regexs = none) :
    download url fps
      = { invoked := none,
          messages := [url ++ " does not match any expected regex for Zenodo"],
          printed := none, exitCode := 1 } := by
  simp [download, h1, h2]

/-- Witness for C7 at the URL of the repository test suite. -/
theorem download_unmatched_url_witness :
    download "https://blah.com" []
      = { invoked := none,
          messages :=
            ["https://blah.com does not match any expected regex for Zenodo"],
          printed := none, exitCode := 1 } :=
  download_unmatched_url "https://blah.com" [] rfl rfl

/-- C8: download_meta maps a ConnectionError to the invalid message with
exit 1, an IsADirectoryError to the not-a-link message with exit 1, a
fetched file failing the legacy validation to the not-valid message with
exit 1, and only on valid content invokes the download_meta_ collaborator
and prints its file list with exit code 0. -/
theorem download_meta_error_paths (url msg fp : String)
    (c : ConstructOutcome) (v : ContentOutcome) (fps : List String) :
    (download_meta url (.connectionError msg) c v fps
        = { invoked := false, messages := [msg, url ++ " is invalid"],
            printed := none, exitCode := 1 })
    ∧ (download_meta url .isADirectoryError c v fps
        = { invoked := false, messages := [url ++ " is not a link to a file"],
            printed := none, exitCode := 1 })
    ∧ (validate_old_ c v = false →
        download_meta url (.ok fp) c v fps
          = { invoked := false, messages := [url ++ " is not valid"],
              printed := none, exitCode := 1 })
    ∧ (validate_old_ c v = true →
        download_meta url (.ok fp) c v fps
          = { invoked := true, messages := [],
              printed := output fps, exitCode := 0 }) := by
  refine ⟨rfl, rfl, fun h => ?_, fun h => ?_⟩
  · simp [download_meta, validate_old_url, h]
  · simp [download_meta, validate_old_url, h]

/-- Witness for C8 on the invalid-content path and the valid path. -/
theorem download_meta_error_paths_witness :
    download_meta "u" (.ok "f") .constructed .schemaError ["m"]
      = { invoked := false, messages := ["u is not valid"],
          printed := none, exitCode := 1 } ∧
    download_meta "u" (.ok "f") .constructed .valid ["m"]
      = { invoked := true, messages := [],
          printed := some "Writing: m\n", exitCode := 0 } :=
  ⟨(download_meta_error_paths "u" "e" "f" .constructed .schemaError ["m"]).2.2.1
      rfl,
   (download_meta_error_paths "u" "e" "f" .constructed .valid ["m"]).2.2.2 rfl⟩

/-- C9: on every non-empty list of file paths, output prints exactly the
line Writing: followed by the comma-separated paths and a final newline,
with no trailing comma on the final entry. -/
theorem output_comma_separated (ps : List String) (h : ps ≠ []) :
    output ps = some ("Writing: " ++ specCommaSeparated ps ++ "\n") := by
  rcases ps.eq_nil_or_concat' with rfl | ⟨init, last, rfl⟩
  · exact absurd rfl h
  · simp only [output, List.getLast?_concat, List.dropLast_concat]
    congr 1
    rw [String.append_assoc "Writing:" (outputLoop init) (echoStr last ""),
      outputLoop_concat, ← String.append_assoc "Writing:" " ",
      show ("Writing:" : String) ++ " " = "Writing: " from rfl]

/-- Witness for C9 at a two-element list. -/
theorem output_comma_separated_witness :
    output ["a", "b"]
      = some ("Writing: " ++ specCommaSeparated ["a", "b"] ++ "\n") :=
  output_comma_separated ["a", "b"] (by decide)

/-- C10: output is undefined on the empty list, where the indexing
local_filepaths[-1] raises IndexError, and is defined on every non-empty
list, so a success path must supply at least one produced file path. -/
theorem output_empty_undefined :
    output [] = none
    ∧ ∀ (p : String) (ps : List String), (output (p :: ps)).isSome = true := by
  refine ⟨rfl, fun p ps => ?_⟩
  cases hl : (p :: ps).getLast? with
  | none =>
      have h2 : (p :: ps).getLast?.isSome := List.getLast?_isSome.mpr (by simp)
      rw [hl] at h2
      simp at h2
  | some last => simp [output, hl]

end PFHub

